import Mathlib

/-!
Shallow embedding of the core of the `google-searchconsole` client
(package `src/searchconsole`): the date-range resolver in `utils.py`,
the immutable `Query` builder and the `Report` pagination assembler in
`query.py`, and the credential layer in `auth.py`.  External
collaborators (the HTTP API executor, the Google credentials classes,
the file system used by `serialize`) are modelled as explicit
parameters, following the capability interfaces the code consumes.
-/

/-! ## Calendar dates (`datetime.date` plus `dateutil.relativedelta`) -/

/-- A calendar date, a value of the external `datetime.date` class. -/
structure CalDate where
  year : Int
  month : Int
  day : Int
deriving DecidableEq, Repr

/-- Leap-year test of the proleptic Gregorian calendar. -/
def CalDate.isLeap (y : Int) : Bool :=
  y % 4 = 0 && (y % 100 != 0 || y % 400 = 0)

/-- Number of days in a month of the Gregorian calendar. -/
def CalDate.daysInMonth (y m : Int) : Int :=
  if m = 2 then (if CalDate.isLeap y then 29 else 28)
  else if m = 4 ∨ m = 6 ∨ m = 9 ∨ m = 11 then 30
  else 31

/-- Serial day number of a civil date (days since 1970-01-01), the
standard closed-form conversion used by calendar libraries. -/
def CalDate.toSerial (dt : CalDate) : Int :=
  let y := if dt.month ≤ 2 then dt.year - 1 else dt.year
  let era := (if 0 ≤ y then y else y - 399).ediv 400
  let yoe := y - era * 400
  let doy := (153 * (if 2 < dt.month then dt.month - 3 else dt.month + 9) + 2).ediv 5 + dt.day - 1
  let doe := yoe * 365 + yoe.ediv 4 - yoe.ediv 100 + doy
  era * 146097 + doe - 719468

/-- Civil date of a serial day number, inverse of `CalDate.toSerial`. -/
def CalDate.ofSerial (z0 : Int) : CalDate :=
  let z := z0 + 719468
  let era := (if 0 ≤ z then z else z - 146096).ediv 146097
  let doe := z - era * 146097
  let yoe := (doe - doe.ediv 1460 + doe.ediv 36524 - doe.ediv 146096).ediv 365
  let y := yoe + era * 400
  let doy := doe - (365 * yoe + yoe.ediv 4 - yoe.ediv 100)
  let mp := (5 * doy + 2).ediv 153
  let d := doy - (153 * mp + 2).ediv 5 + 1
  let m := if mp < 10 then mp + 3 else mp - 9
  ⟨if m ≤ 2 then y + 1 else y, m, d⟩

/-- Python `date + timedelta(days=n)`: day arithmetic through serial day numbers. -/
def CalDate.addDays (dt : CalDate) (n : Int) : CalDate :=
  CalDate.ofSerial (dt.toSerial + n)

/-- The month part of `relativedelta(months=m)`: months are added to the
linearised month count (Python `divmod`, i.e. floor division, as in
`dateutil`) and the day of month is clamped to the target month length. -/
def CalDate.addMonths (dt : CalDate) (m : Int) : CalDate :=
  let total := dt.year * 12 + (dt.month - 1) + m
  let y := total.ediv 12
  let mo := total.emod 12 + 1
  ⟨y, mo, min dt.day (CalDate.daysInMonth y mo)⟩

/-- Python `date + relativedelta(days=d, months=m)`: `dateutil` applies the
month displacement (with day clamping) first, then the day timedelta. -/
def CalDate.addRelative (dt : CalDate) (months days : Int) : CalDate :=
  (dt.addMonths months).addDays days

/-- Zero-pad a month or day number to two digits, as `date.isoformat` does. -/
def CalDate.pad2 (n : Int) : String :=
  if n < 10 then "0" ++ toString n else toString n

/-- Zero-pad a year to four digits, as `date.isoformat` does. -/
def CalDate.pad4 (n : Int) : String :=
  if n < 10 then "000" ++ toString n
  else if n < 100 then "00" ++ toString n
  else if n < 1000 then "0" ++ toString n
  else toString n

/-- Source `utils.serialize`: render a date as an ISO `YYYY-MM-DD` string. -/
def CalDate.toIso (dt : CalDate) : String :=
  CalDate.pad4 dt.year ++ "-" ++ CalDate.pad2 dt.month ++ "-" ++ CalDate.pad2 dt.day

/-- Python `date` comparison: lexicographic on (year, month, day). -/
def CalDate.ltb (a b : CalDate) : Bool :=
  decide (a.year < b.year ∨ (a.year = b.year ∧
    (a.month < b.month ∨ (a.month = b.month ∧ a.day < b.day))))

/-! ## `utils.daterange` -/

/-- Inputs accepted by `utils.normalize`: a `datetime.date` value, a
string that the external `dateutil` parser accepts (carrying the parsed
date, since `dateutil` is an external collaborator), or a string handed
to `utils.parse_description` (the keywords today and yesterday, or an
unparseable string). -/
inductive DateInput where
  | date (d : CalDate)
  | iso (d : CalDate)
  | keyword (s : String)
deriving DecidableEq, Repr

/-- Errors raised by `utils.py` date handling: the `ValueError` from
`parse_description` and the bare `Exception` raised by `daterange` when
an explicit stop is combined with a day or month offset. -/
inductive DErr where
  | parseError (msg : String)
  | rangeConflict (msg : String)
deriving DecidableEq, Repr

deriving instance DecidableEq for Except

/-- Source `utils.parse_description`: resolve the relative keywords, raising
`ValueError` on anything else. -/
def Utils.parse_description (todayD : CalDate) (s : String) : Except DErr CalDate :=
  if s = "today" then .ok todayD
  else if s = "yesterday" then .ok (todayD.addDays (-1))
  else .error (.parseError "Cannot parse date string.")

/-- Source `utils.normalize`: `None` stays `None`, date values pass through,
strings go through the `dateutil` parser and then `parse_description`. -/
def Utils.normalize (todayD : CalDate) : Option DateInput → Except DErr (Option CalDate)
  | none => .ok none
  | some (.date d) => .ok (some d)
  | some (.iso d) => .ok (some d)
  | some (.keyword s) => (Utils.parse_description todayD s).map some

/-- Python `sorted([start, stop])` followed by `map(serialize, ...)`: the pair
of ISO strings in ascending date order. -/
def sortedPair (a b : CalDate) : String × String :=
  if CalDate.ltb b a then (b.toIso, a.toIso) else (a.toIso, b.toIso)

/-- Source `utils.daterange(start, stop, days, months)`.  `today` is passed
explicitly (the source reads `datetime.date.today()`).  The source
defaults a missing start to yesterday, rejects an explicit stop next to
a nonzero offset, applies the one-off adjustment to `days` (`days + 1`
when the offset is negative, `days - 1` otherwise), adds
`relativedelta(days=days, months=months)` to start, and returns the
serialized pair sorted ascending. -/
def Utils.daterange (todayD : CalDate) (start stop : Option DateInput)
    (days months : Int) : Except DErr (String × String) :=
  let yesterday := todayD.addDays (-1)
  match Utils.normalize todayD start with
  | .error e => .error e
  | .ok startO =>
    let startD := startO.getD yesterday
    match Utils.normalize todayD stop with
    | .error e => .error e
    | .ok stopO =>
      if days ≠ 0 ∨ months ≠ 0 then
        match stopO with
        | some _ => .error (.rangeConflict "A date range cannot be defined alongside months or days.")
        | none =>
          let days1 := if days < 0 ∨ months < 0 then days + 1 else days - 1
          let stopD := startD.addRelative months days1
          .ok (sortedPair startD stopD)
      else
        let stopD := stopO.getD startD
        .ok (sortedPair startD stopD)

/-! ## `query.Query` -/

/-- One dimension filter, the dict built inside `Query.filter`. -/
structure DimensionFilter where
  dimension : String
  expression : String
  operator : String
deriving DecidableEq, Repr

/-- One filter group, the dict appended to `dimensionFilterGroups`. -/
structure FilterGroup where
  groupType : String
  filters : List DimensionFilter
deriving DecidableEq, Repr

/-- The `Query.raw` request dict.  `__init__` always sets `startRow`
and `rowLimit` (defaults 0 and 25000); the remaining keys appear only
once the corresponding mutator ran, hence `Option`.  The source dict
key `type` is spelled `searchType` here. -/
structure QueryRaw where
  startRow : Int := 0
  rowLimit : Int := 25000
  startDate : Option String := none
  endDate : Option String := none
  dimensions : Option (List String) := none
  dimensionFilterGroups : Option (List FilterGroup) := none
  searchType : Option String := none
  dataState : Option String := none
deriving DecidableEq, Repr

/-- The `Query.meta` dict; the only key the source ever stores is
`limit` (set by `Query.limit`). -/
structure QueryMeta where
  limit : Option Int := none
deriving DecidableEq, Repr

/-- Source `query.Query`: the request parameters, the metadata, and the opaque
bound API resource handle (`self.api`), identified by a number. -/
structure Query where
  api : Nat
  raw : QueryRaw := {}
  meta : QueryMeta := {}
deriving DecidableEq, Repr

/-- Source `Query.clone`: a new instance from deep copies of `raw` and `meta`,
bound to the same api handle. -/
def Query.clone (q : Query) : Query :=
  { api := q.api, raw := q.raw, meta := q.meta }

/-- Source `Query.range` (decorated with `utils.immutable`: the body runs on a
clone).  Delegates to `utils.daterange` and stores the resolved pair
under `startDate` and `endDate`; an exception from `daterange`
propagates. -/
def Query.range (todayD : CalDate) (q : Query) (start stop : Option DateInput)
    (months days : Int) : Except DErr Query :=
  match Utils.daterange todayD start stop days months with
  | .error e => .error e
  | .ok (s, e) =>
    let obj := q.clone
    .ok { obj with raw := { obj.raw with startDate := some s, endDate := some e } }

/-- Source `Query.dimension` (immutable): replaces the dimension list. -/
def Query.dimension (q : Query) (dimensions : List String) : Query :=
  let obj := q.clone
  { obj with raw := { obj.raw with dimensions := some dimensions } }

/-- Source `Query.filter` (immutable): appends one group holding one filter to
`dimensionFilterGroups`, creating the list if absent (`setdefault`). -/
def Query.filter (q : Query) (dimension expression : String)
    (operator : String := "equals") (group_type : String := "and") : Query :=
  let obj := q.clone
  let dimension_filter : DimensionFilter := ⟨dimension, expression, operator⟩
  let filter_group : FilterGroup := ⟨group_type, [dimension_filter]⟩
  { obj with raw := { obj.raw with
      dimensionFilterGroups :=
        some ((obj.raw.dimensionFilterGroups.getD []) ++ [filter_group]) } }

/-- Source `Query.search_type` (immutable): sets the raw `type` key. -/
def Query.search_type (q : Query) (searchType : String) : Query :=
  let obj := q.clone
  { obj with raw := { obj.raw with searchType := some searchType } }

/-- Source `Query.data_state` (immutable): sets the raw `dataState` key. -/
def Query.data_state (q : Query) (dataState : String) : Query :=
  let obj := q.clone
  { obj with raw := { obj.raw with dataState := some dataState } }

/-- Source `Query.limit` (immutable), with its variadic argument as a list:
two arguments unpack as `maximum, start = limit_`, otherwise `start`
is 0 and `maximum` is the first argument (an empty call raises, hence
`Option`).  Stores `maximum` in `meta.limit` and updates the window to
`startRow = start`, `rowLimit = min(25000, maximum)`. -/
def Query.limitCore (q : Query) (maximum start : Int) : Query :=
  let obj := q.clone
  { obj with
    meta := { limit := some maximum }
    raw := { obj.raw with startRow := start, rowLimit := min 25000 maximum } }

def Query.limit (q : Query) : List Int → Option Query
  | [maximum, start] => some (q.limitCore maximum start)
  | maximum :: _ => some (q.limitCore maximum 0)
  | [] => none

/-- Source `Query.next` (immutable): advances `startRow` by the current
`rowLimit` (the source reads both with `dict.get` and the defaults 0
and 25000, but `__init__` guarantees the keys are present). -/
def Query.next (q : Query) : Query :=
  let obj := q.clone
  { obj with raw := { obj.raw with startRow := obj.raw.startRow + obj.raw.rowLimit } }

/-- Source `Query.build`: the raw parameter dict (a deep copy in the source). -/
def Query.build (q : Query) : QueryRaw := q.raw

/-- Source `Query.__eq__`: instances of the same class compare by their raw
parameter dicts alone; `meta` and the api handle do not participate. -/
def Query.pyEq (a b : Query) : Bool := decide (a.raw = b.raw)

/-! ## `query.Report` -/

/-- One raw row of an API response: the positional `keys` array plus
the named metric fields that `Report.append` keeps verbatim. -/
structure RawRow where
  keys : List String
  metrics : List (String × Int)
deriving DecidableEq, Repr

/-- One raw page response (`raw.get('rows', [])`; a response without
the key behaves as the empty list). -/
structure Page where
  rows : List RawRow
deriving DecidableEq, Repr

/-- One assembled `Report.Row`: dimension names zipped with the popped
`keys` array, plus the remaining named metric fields. -/
structure ReportRow where
  dims : List (String × String)
  metrics : List (String × Int)
deriving DecidableEq, Repr

/-- The body of the row loop in `Report.append`: `dict(zip(dimensions,
row.pop('keys', [])))` plus the remaining fields. -/
def processRow (dimensions : List String) (row : RawRow) : ReportRow :=
  ⟨dimensions.zip row.keys, row.metrics⟩

/-- Source `query.Report`: accumulated raw pages, the query of each page, the
schema fixed at construction, the assembled rows and the completion
flag. -/
structure Report where
  raw : List Page
  queries : List Query
  dimensions : List String
  metrics : List String
  rows : List ReportRow
  is_complete : Bool
deriving DecidableEq, Repr

/-- Source `Report._build_metrics`: the four default metrics, with `position`
removed for the `discover` and `googleNews` search types. -/
def Report.buildMetrics (q : Query) : List String :=
  let metrics := ["clicks", "impressions", "ctr", "position"]
  if q.raw.searchType = some "discover" ∨ q.raw.searchType = some "googleNews" then
    metrics.erase "position"
  else metrics

/-- Source `Report.append(raw, query)`: stores the page and its query, sets
`is_complete = not rows` (note: the source also computes
`step = query.raw.get('rowLimit', 25000)` but never uses it), and
extends `rows` with one assembled row per raw row. -/
def Report.append (r : Report) (page : Page) (q : Query) : Report :=
  { raw := r.raw ++ [page]
    queries := r.queries ++ [q]
    dimensions := r.dimensions
    metrics := r.metrics
    rows := r.rows ++ page.rows.map (processRow r.dimensions)
    is_complete := page.rows.isEmpty }

/-- Source `Report.__init__(raw, query)`: derives the schema from the query of
the first page, then appends that page. -/
def Report.ofResponse (page : Page) (q : Query) : Report :=
  Report.append
    { raw := [], queries := [], dimensions := q.raw.dimensions.getD []
      metrics := Report.buildMetrics q, rows := [], is_complete := false }
    page q

/-! ## Pagination (`Query.execute` and `Query.get`)

The external analytics executor is modelled as a finite dataset of raw
rows which it serves in slices: a request with window `startRow`,
`rowLimit` receives the rows `dataset[startRow : startRow + rowLimit]`,
exactly the environment of the pagination claims. -/

/-- The slice of the dataset an execution of `q` receives. -/
def fetchPage (dataset : List RawRow) (q : Query) : Page :=
  ⟨(dataset.drop q.raw.startRow.toNat).take q.raw.rowLimit.toNat⟩

/-- Source `Query.execute`: serialize `build()`, call the API, wrap the
response in a fresh `Report`. -/
def Query.execute (dataset : List RawRow) (q : Query) : Report :=
  Report.ofResponse (fetchPage dataset q) q

/-- The `while` loop of `Query.get`, with explicit fuel (the source
relies on the executor eventually returning an empty page).  Returns
the report and the number of page fetches, or `none` if the fuel runs
out.  Each iteration executes the cursor once, merges the page
(`report.append(chunk.raw[0], cursor)` appends the page a fresh chunk
was built from), recomputes `is_enough` from `self.meta` (absent limit
means infinity) and `is_complete`, and advances the cursor. -/
def Query.getAux (dataset : List RawRow) (self : Query) :
    Nat → Option Report → Query → Nat → Option (Report × Nat)
  | 0, _, _, _ => none
  | fuel + 1, report, cursor, fetches =>
    let page := fetchPage dataset cursor
    let report1 := match report with
      | some r => r.append page cursor
      | none => cursor.execute dataset
    let is_enough : Bool := match self.meta.limit with
      | some l => decide ((report1.rows.length : Int) ≥ l)
      | none => false
    if is_enough || report1.is_complete then some (report1, fetches + 1)
    else Query.getAux dataset self fuel (some report1) cursor.next (fetches + 1)

/-- Source `Query.get`: run the pagination loop from the query itself with no
report accumulated yet. -/
def Query.get (dataset : List RawRow) (fuel : Nat) (q : Query) : Option (Report × Nat) :=
  Query.getAux dataset q fuel none q 0

/-- Queries reachable through the builder: the base query of a web
property refined by any chain of mutators. -/
inductive Built : Query → Prop
  | base (api : Nat) : Built { api := api }
  | of_range (todayD : CalDate) (q q' : Query) (start stop : Option DateInput)
      (months days : Int) :
      Built q → Query.range todayD q start stop months days = .ok q' → Built q'
  | of_dimension (q : Query) (ds : List String) : Built q → Built (q.dimension ds)
  | of_filter (q : Query) (d e o g : String) : Built q → Built (q.filter d e o g)
  | of_search_type (q : Query) (s : String) : Built q → Built (q.search_type s)
  | of_data_state (q : Query) (s : String) : Built q → Built (q.data_state s)
  | of_limit (q q' : Query) (l : List Int) : Built q → q.limit l = some q' → Built q'
  | of_next (q : Query) : Built q → Built q.next
  | of_clone (q : Query) : Built q → Built q.clone

/-! ## `auth.py`: credential serialization -/

/-- The persisted OAuth2 credential mapping: the exact seven keys that
`OAuth2Credentials.to_dict` writes and `from_dict` reads.  Values may
be JSON null (`Option`). -/
structure OAuth2Dict where
  token : Option String
  refresh_token : Option String
  id_token : Option String
  token_uri : Option String
  client_id : Option String
  client_secret : Option String
  scopes : Option (List String)
deriving DecidableEq, Repr

/-- The external `google.oauth2.credentials.Credentials` object, with
the attributes the repository reads back.  Constructor parameters not
passed default to `None`; in particular `scopes` does. -/
structure GoogleOAuth2Session where
  token : Option String
  refresh_token : Option String
  id_token : Option String
  token_uri : Option String
  client_id : Option String
  client_secret : Option String
  scopes : Option (List String)
deriving DecidableEq, Repr

/-- Source `OAuth2Credentials.from_dict`: calls the external constructor with
the six keyword arguments `token`, `refresh_token`, `id_token`,
`token_uri`, `client_id`, `client_secret`; `scopes` is not passed, so
the session keeps the constructor default `None`. -/
def OAuth2Credentials.from_dict (d : OAuth2Dict) : GoogleOAuth2Session :=
  { token := d.token
    refresh_token := d.refresh_token
    id_token := d.id_token
    token_uri := d.token_uri
    client_id := d.client_id
    client_secret := d.client_secret
    scopes := none }

/-- Source `OAuth2Credentials.to_dict`: the seven attributes read back from
the wrapped session object. -/
def OAuth2Credentials.to_dict (c : GoogleOAuth2Session) : OAuth2Dict :=
  { token := c.token
    refresh_token := c.refresh_token
    id_token := c.id_token
    token_uri := c.token_uri
    client_id := c.client_id
    client_secret := c.client_secret
    scopes := c.scopes }

/-- Source `ServiceAccountCredentials.to_dict`: unconditionally raises a
`ValueError` carrying this message. -/
def serviceAccountToDictMsg : String :=
  "Serialization is not supported for service accounts since there is no interactive\n authentication flow. Simply use the service account key you used to authenticate."

def ServiceAccountCredentials.to_dict : Except String OAuth2Dict :=
  .error serviceAccountToDictMsg

/-- The file system seen by `Credentials.serialize`: a map from paths
to file contents. -/
def FileSystem : Type := String → Option String

/-- Creating or truncating a file (the effect of `open(path, "w")`). -/
def setFile (fs : FileSystem) (path content : String) : FileSystem :=
  fun p => if p = path then some content else fs p

/-- Source `Credentials.serialize(file_path)`: `with open(file_path, "w") as
f: json.dump(self.to_dict(), f)`.  Opening in write mode creates or
truncates the file before `to_dict` is evaluated; if `to_dict` raises,
the error propagates and the file is left empty.  The JSON rendering of
a successful dump is the external `json.dump`, passed in as `dump`. -/
def Credentials.serialize (to_dict : Except String OAuth2Dict)
    (dump : OAuth2Dict → String) (fs : FileSystem) (path : String) :
    FileSystem × Except String Unit :=
  let fs1 := setFile fs path ""
  match to_dict with
  | .error e => (fs1, .error e)
  | .ok d => (setFile fs1 path (dump d), .ok ())

/-! ## Helper lemmas -/

theorem Report.append_rows_length (r : Report) (p : Page) (q : Query) :
    (r.append p q).rows.length = r.rows.length + p.rows.length := by
  simp [Report.append]

theorem Report.append_is_complete (r : Report) (p : Page) (q : Query) :
    (r.append p q).is_complete = p.rows.isEmpty := rfl

theorem Report.ofResponse_rows_length (p : Page) (q : Query) :
    (Report.ofResponse p q).rows.length = p.rows.length := by
  simp [Report.ofResponse, Report.append]

theorem Report.ofResponse_is_complete (p : Page) (q : Query) :
    (Report.ofResponse p q).is_complete = p.rows.isEmpty := rfl

theorem Query.next_startRow (q : Query) :
    (q.next).raw.startRow = q.raw.startRow + q.raw.rowLimit := rfl

theorem Query.next_rowLimit (q : Query) :
    (q.next).raw.rowLimit = q.raw.rowLimit := rfl

theorem fetchPage_length (ds : List RawRow) (q : Query) :
    (fetchPage ds q).rows.length = min q.raw.rowLimit.toNat (ds.length - q.raw.startRow.toNat) := by
  simp [fetchPage]

theorem Query.getAux_succ (ds : List RawRow) (self : Query) (fuel : Nat)
    (ro : Option Report) (cursor : Query) (fetches : Nat) :
    Query.getAux ds self (fuel + 1) ro cursor fetches =
      (let page := fetchPage ds cursor
       let report1 := match ro with
         | some r => r.append page cursor
         | none => cursor.execute ds
       let is_enough : Bool := match self.meta.limit with
         | some l => decide ((report1.rows.length : Int) ≥ l)
         | none => false
       if is_enough || report1.is_complete then some (report1, fetches + 1)
       else Query.getAux ds self fuel (some report1) cursor.next (fetches + 1)) := rfl

/-- Row count already accumulated in an optional report. -/
def baseLen : Option Report → Nat
  | some r => r.rows.length
  | none => 0

/-- Invariant run of the pagination loop: from a cursor positioned at
`startRow = s` over a dataset with `rem` rows not yet reached, the loop
performs exactly `⌈rem / P⌉ + 1` further fetches (the final one being
the empty page that sets `is_complete`), accumulates exactly the `rem`
remaining rows, and ends complete. -/
theorem getAux_run (ds : List RawRow) (self : Query) (hmeta : self.meta.limit = none)
    (P : Nat) (hP : 0 < P) :
    ∀ rem : Nat, ∀ (fuel s fetches : Nat) (ro : Option Report) (cursor : Query),
      cursor.raw.startRow = (s : Int) →
      cursor.raw.rowLimit = (P : Int) →
      rem = ds.length - s →
      rem + 2 ≤ fuel →
      ∃ rep : Report,
        Query.getAux ds self fuel ro cursor fetches
          = some (rep, fetches + ((rem + P - 1) / P + 1)) ∧
        rep.rows.length = baseLen ro + rem ∧
        rep.is_complete = true := by
  intro rem
  induction rem using Nat.strong_induction_on with
  | _ rem IH =>
    intro fuel s fetches ro cursor hs hrl hrem hfuel
    obtain ⟨fuel, rfl⟩ : ∃ f, fuel = f + 1 := ⟨fuel - 1, by omega⟩
    have htop : ((P : Int)).toNat = P := by omega
    have hstop : ((s : Int)).toNat = s := by omega
    have hpage : (fetchPage ds cursor).rows.length = min P rem := by
      rw [fetchPage_length, hs, hrl, htop, hstop, hrem]
    set page := fetchPage ds cursor with hpagedef
    have hrep1 : ∀ r : Report, ((r.append page cursor).rows.length = r.rows.length + min P rem
        ∧ (r.append page cursor).is_complete = page.rows.isEmpty) := by
      intro r
      exact ⟨by rw [Report.append_rows_length, hpage], Report.append_is_complete r page cursor⟩
    have hchunk : (cursor.execute ds).rows.length = min P rem
        ∧ (cursor.execute ds).is_complete = page.rows.isEmpty := by
      constructor
      · rw [Query.execute, Report.ofResponse_rows_length, ← hpagedef, hpage]
      · rw [Query.execute, Report.ofResponse_is_complete, ← hpagedef]
    rw [Query.getAux_succ]
    simp only [← hpagedef, hmeta]
    rcases Nat.eq_zero_or_pos rem with h0 | hpos
    · -- the cursor is past the end of the dataset: the page is empty,
      -- the append sets is_complete and the loop stops after this fetch
      have hempty : page.rows.isEmpty = true := by
        have : page.rows.length = 0 := by rw [hpage, h0]; omega
        simpa [List.isEmpty_iff_length_eq_zero] using this
      have hcount : (rem + P - 1) / P + 1 = 1 := by
        rw [h0]
        have : (P - 1) / P = 0 := Nat.div_eq_of_lt (by omega)
        simp [this]
      rcases ro with _ | r
      · refine ⟨cursor.execute ds, ?_, ?_, ?_⟩
        · simp only [hchunk.2, hempty, Bool.or_true, if_true, hcount]
        · rw [hchunk.1, h0]; simp [baseLen]
        · rw [hchunk.2, hempty]
      · refine ⟨r.append page cursor, ?_, ?_, ?_⟩
        · simp only [(hrep1 r).2, hempty, Bool.or_true, if_true, hcount]
        · rw [(hrep1 r).1, h0]; simp [baseLen]
        · rw [(hrep1 r).2, hempty]
    · -- at least one dataset row remains: the page is nonempty, the
      -- loop recurses on the advanced cursor
      have hnonempty : page.rows.isEmpty = false := by
        have : page.rows.length ≠ 0 := by rw [hpage]; omega
        rcases h : page.rows with _ | ⟨a, l⟩
        · rw [h] at this; simp at this
        · simp
      have hnext_s : cursor.next.raw.startRow = ((s + P : Nat) : Int) := by
        rw [Query.next_startRow, hs, hrl]; push_cast; ring
      have hnext_rl : cursor.next.raw.rowLimit = (P : Int) := by
        rw [Query.next_rowLimit, hrl]
      have hrem' : rem - P = ds.length - (s + P) := by omega
      have hfuel' : rem - P + 2 ≤ fuel := by omega
      have hdiv : (rem - P + P - 1) / P + 1 = (rem + P - 1) / P := by
        have e1 : rem + P - 1 = (rem - 1) + P := by omega
        rcases Nat.le_total P rem with hle | hlt
        · have e2 : rem - P + P - 1 = rem - 1 := by omega
          rw [e1, e2, Nat.add_div_right _ hP]
        · have e2 : rem - P + P - 1 = P - 1 := by omega
          rw [e1, e2, Nat.add_div_right _ hP]
          have h1 : (rem - 1) / P = 0 := Nat.div_eq_of_lt (by omega)
          have h2 : (P - 1) / P = 0 := Nat.div_eq_of_lt (by omega)
          omega
      have hfin : fetches + 1 + (rem + P - 1) / P = fetches + ((rem + P - 1) / P + 1) := by
        generalize (rem + P - 1) / P = c; omega
      rcases ro with _ | r
      · obtain ⟨rep, hrun, hlen, hic⟩ :=
          IH (rem - P) (Nat.sub_lt hpos hP) fuel (s + P) (fetches + 1)
            (some (cursor.execute ds)) cursor.next hnext_s hnext_rl hrem' hfuel'
        refine ⟨rep, ?_, ?_, hic⟩
        · simp only [hchunk.2, hnonempty, Bool.or_false, if_neg Bool.false_ne_true, hrun,
            hdiv, hfin]
        · rw [hlen]
          simp only [baseLen, hchunk.1]
          rcases Nat.le_total P rem with hle | hlt
          · rw [Nat.min_eq_left hle]; omega
          · rw [Nat.min_eq_right hlt]; omega
      · obtain ⟨rep, hrun, hlen, hic⟩ :=
          IH (rem - P) (Nat.sub_lt hpos hP) fuel (s + P) (fetches + 1)
            (some (r.append page cursor)) cursor.next hnext_s hnext_rl hrem' hfuel'
        refine ⟨rep, ?_, ?_, hic⟩
        · simp only [(hrep1 r).2, hnonempty, Bool.or_false, if_neg Bool.false_ne_true, hrun,
            hdiv, hfin]
        · rw [hlen]
          simp only [baseLen, (hrep1 r).1]
          rcases Nat.le_total P rem with hle | hlt
          · rw [Nat.min_eq_left hle]; omega
          · rw [Nat.min_eq_right hlt]; omega

/-! ## Claims -/

/-- A concrete three-row dataset. -/
def dsThree : List RawRow :=
  [⟨["a"], [("clicks", 1)]⟩, ⟨["b"], [("clicks", 2)]⟩, ⟨["c"], [("clicks", 3)]⟩]

/-- A concrete two-row dataset. -/
def dsPair : List RawRow :=
  [⟨["a"], [("clicks", 1)]⟩, ⟨["b"], [("clicks", 2)]⟩]

/-- Claim C1, counterexample: over a dataset of N = 2 rows with page
size P = 2 and no total-row cap, the claim predicts the loop stops
after ⌈N/P⌉ = 1 page fetch, but `Query.get` performs 2 fetches: the
full first page does not set `is_complete` (only an empty page does),
so one extra empty fetch is needed. -/
theorem claim1_counterexample :
    (Query.get dsPair 4 { api := 0, raw := { startRow := 0, rowLimit := 2 } }).map
        (fun x => (x.1.rows.length, x.1.is_complete, x.2)) = some (2, true, 2) ∧
    (2 : Nat) ≠ (2 + 2 - 1) / 2 := by
  constructor
  · decide
  · decide

/-- Claim C1 (amended): for a finite dataset of N rows served in pages
of size P = rowLimit > 0 by the executor, and a query with no total-row
cap, `Query.get` returns a Report with exactly N rows after exactly
⌈N/P⌉ + 1 page fetches — the final, empty fetch is what sets
`is_complete` — and `is_complete` is true after the final fetch. -/
theorem claim1_amended (ds : List RawRow) (api : Nat) (P : Nat) (hP : 0 < P) :
    ∃ rep : Report,
      Query.get ds (ds.length + 2)
          { api := api, raw := { startRow := 0, rowLimit := (P : Int) } }
        = some (rep, (ds.length + P - 1) / P + 1) ∧
      rep.rows.length = ds.length ∧
      rep.is_complete = true := by
  obtain ⟨rep, hrun, hlen, hic⟩ :=
    getAux_run ds { api := api, raw := { startRow := 0, rowLimit := (P : Int) } } rfl P hP
      ds.length (ds.length + 2) 0 0 none
      { api := api, raw := { startRow := 0, rowLimit := (P : Int) } }
      (by simp) rfl (by omega) (by omega)
  refine ⟨rep, ?_, ?_, hic⟩
  · simpa [Query.get] using hrun
  · simpa [baseLen] using hlen

theorem claim1_amended_witness :
    (0 < 2) ∧
    ∃ rep : Report,
      Query.get dsThree (dsThree.length + 2)
          { api := 0, raw := { startRow := 0, rowLimit := ((2 : Nat) : Int) } }
        = some (rep, (dsThree.length + 2 - 1) / 2 + 1) ∧
      rep.rows.length = dsThree.length ∧
      rep.is_complete = true :=
  ⟨by decide, claim1_amended dsThree 0 2 (by decide)⟩

/-- The query a short page is measured against in claim C2. -/
def qRL2 : Query := { api := 0, raw := { startRow := 0, rowLimit := 2 } }

/-- A page with a single row. -/
def shortPage : Page := ⟨[⟨["x"], [("clicks", 7)]⟩]⟩

/-- Claim C2, counterexample: a page of 1 row produced by a query
requesting rowLimit 2 is short but non-empty; the claim says
`is_complete` must already be true, but `Report.append` (run here
through `Report.__init__`, which delegates to it) leaves it false
because the source sets `is_complete = not rows`. -/
theorem claim2_counterexample :
    (Report.ofResponse shortPage qRL2).is_complete = false ∧
    ((shortPage.rows.length : Int) < qRL2.raw.rowLimit) := by
  constructor
  · decide
  · decide

/-- Claim C2 (amended): after `Report.append` processes a page,
`is_complete` is true exactly when that page returned zero rows; the
requested rowLimit of the producing query plays no part (the source
computes it into the dead variable `step`), so a short but non-empty
final page does not set `is_complete`. -/
theorem claim2_amended (r : Report) (page : Page) (q : Query) :
    ((r.append page q).is_complete = true ↔ page.rows = []) ∧
    ((Report.ofResponse page q).is_complete = true ↔ page.rows = []) := by
  constructor
  · rw [Report.append_is_complete]
    exact List.isEmpty_iff
  · rw [Report.ofResponse_is_complete]
    exact List.isEmpty_iff

/-- Claim C3: `Query.next` returns a query whose `startRow` is the
receiver's `startRow` plus its current `rowLimit`, hence strictly
larger whenever the page size is positive. -/
theorem claim3_next (q : Query) :
    (q.next).raw.startRow = q.raw.startRow + q.raw.rowLimit ∧
    (0 < q.raw.rowLimit → q.raw.startRow < (q.next).raw.startRow) := by
  refine ⟨rfl, ?_⟩
  intro h
  rw [Query.next_startRow]
  omega

theorem claim3_next_witness :
    (Query.next { api := 0 }).raw.startRow
        = ({ api := 0 } : Query).raw.startRow + ({ api := 0 } : Query).raw.rowLimit ∧
    ({ api := 0 } : Query).raw.startRow < (Query.next { api := 0 }).raw.startRow :=
  ⟨(claim3_next { api := 0 }).1, (claim3_next { api := 0 }).2 (by decide)⟩

/-- A seven-field credential mapping whose `scopes` entry is set. -/
def c4Input : OAuth2Dict :=
  { token := some "tok", refresh_token := some "refresh-tok", id_token := some "idt"
    token_uri := some "https://oauth2.googleapis.com/token", client_id := some "cid"
    client_secret := some "sec"
    scopes := some ["https://www.googleapis.com/auth/webmasters.readonly"] }

/-- Claim C4: the round trip is NOT lossless.  `from_dict` never passes
`scopes` to the credentials constructor, so
`to_dict(from_dict(d)).scopes` is `None` for every input, and the round
trip differs from `d` whenever `d.scopes` is set (the general equation
in the last conjunct shows `scopes` is the only field lost). -/
theorem claim4_scopes_dropped :
    (OAuth2Credentials.to_dict (OAuth2Credentials.from_dict c4Input)).scopes = none ∧
    c4Input.scopes = some ["https://www.googleapis.com/auth/webmasters.readonly"] ∧
    OAuth2Credentials.to_dict (OAuth2Credentials.from_dict c4Input) ≠ c4Input ∧
    (∀ d : OAuth2Dict,
        OAuth2Credentials.to_dict (OAuth2Credentials.from_dict d) = { d with scopes := none }) := by
  refine ⟨rfl, rfl, by decide, fun d => rfl⟩

/-- Claim C5, counterexample: serializing service-account credentials
to a path where no file exists raises, but still creates an (empty)
file at that path, because `open(path, "w")` runs before `to_dict`
raises — contradicting the part of the claim that says serialize never
writes a file. -/
theorem claim5_counterexample :
    ((fun _ => none : FileSystem) "credentials.json") = none ∧
    (Credentials.serialize ServiceAccountCredentials.to_dict (fun _ => "")
        (fun _ => none) "credentials.json").1 "credentials.json" = some "" :=
  ⟨rfl, rfl⟩

/-- Claim C5 (amended): `ServiceAccountCredentials.to_dict` always
raises the descriptive serialization-unsupported error (it never
returns a mapping and never no-ops), and `serialize` propagates that
error without writing any credential data — but it first opens the
target path in write mode, so it leaves an empty file there (creating
it, or truncating an existing one). -/
theorem claim5_amended (dump : OAuth2Dict → String) (fs : FileSystem) (path : String) :
    ServiceAccountCredentials.to_dict = Except.error serviceAccountToDictMsg ∧
    (Credentials.serialize ServiceAccountCredentials.to_dict dump fs path).2
        = Except.error serviceAccountToDictMsg ∧
    (Credentials.serialize ServiceAccountCredentials.to_dict dump fs path).1 path = some "" := by
  refine ⟨rfl, rfl, ?_⟩
  simp [Credentials.serialize, ServiceAccountCredentials.to_dict, setFile]

/-- Claim C6, counterexample: the claim reads the two-argument form as
`limit(start, n)`, so `limit(3, 5)` would set the total-row cap
`meta.limit` to 5 and `startRow` to 3 (with `rowLimit = min(25000, 5)
= 5`).  The source unpacks `maximum, start = limit_`, producing cap 3,
`startRow` 5 and `rowLimit` 3. -/
theorem claim6_counterexample :
    (Query.limit { api := 0 } [3, 5]).map
        (fun q => (q.meta.limit, q.raw.startRow, q.raw.rowLimit))
      = some (some 3, 5, 3) ∧
    (some (3 : Int), (5 : Int), (3 : Int)) ≠ (some 5, (3 : Int), (5 : Int)) := by
  constructor
  · decide
  · decide

/-- Claim C6 (amended): `limit(n)` sets `meta.limit = n`, `startRow =
0` and `rowLimit = min(25000, n)`; the two-argument form is
`limit(n, start)` — total-row cap first, then window start.  Every
query produced by the builder has `rowLimit ≤ 25000`. -/
theorem claim6_amended :
    (∀ (q : Query) (n : Int),
        q.limit [n] =
          some { api := q.api, meta := { limit := some n },
                 raw := { q.raw with startRow := 0, rowLimit := min 25000 n } }) ∧
    (∀ (q : Query) (n s : Int),
        q.limit [n, s] =
          some { api := q.api, meta := { limit := some n },
                 raw := { q.raw with startRow := s, rowLimit := min 25000 n } }) ∧
    (∀ q : Query, Built q → q.raw.rowLimit ≤ 25000) := by
  refine ⟨fun q n => rfl, fun q n s => rfl, ?_⟩
  intro q h
  induction h with
  | base api => exact le_refl _
  | of_range todayD q q' start stop months days heq hb ih =>
    rw [Query.range] at hb
    rcases hd : Utils.daterange todayD start stop days months with e | pr
    · rw [hd] at hb
      exact absurd hb (by simp)
    · rw [hd] at hb
      obtain ⟨s1, e1⟩ := pr
      simp only [Except.ok.injEq] at hb
      subst hb
      simpa [Query.clone] using ih
  | of_dimension q ds hb ih => simpa [Query.dimension, Query.clone] using ih
  | of_filter q d e o g hb ih => simpa [Query.filter, Query.clone] using ih
  | of_search_type q s hb ih => simpa [Query.search_type, Query.clone] using ih
  | of_data_state q s hb ih => simpa [Query.data_state, Query.clone] using ih
  | of_limit q q' l hb heq ih =>
    rcases l with _ | ⟨m, rest⟩
    · exact absurd heq (by simp [Query.limit])
    · rcases rest with _ | ⟨s1, rest2⟩
      · simp only [Query.limit, Option.some.injEq] at heq
        subst heq
        simp [Query.limitCore, Query.clone]
      · rcases rest2 with _ | ⟨x, xs⟩
        · simp only [Query.limit, Option.some.injEq] at heq
          subst heq
          simp [Query.limitCore, Query.clone]
        · simp only [Query.limit, Option.some.injEq] at heq
          subst heq
          simp [Query.limitCore, Query.clone]
  | of_next q hb ih => simpa [Query.next, Query.clone] using ih
  | of_clone q hb ih => simpa [Query.clone] using ih

/-- The base query bound to the api handle 0. -/
def q0 : Query := { api := 0 }

theorem claim6_amended_witness :
    Query.limit q0 [30000] =
      some { api := q0.api, meta := { limit := some 30000 },
             raw := { q0.raw with startRow := 0, rowLimit := min 25000 30000 } } ∧
    Query.limit q0 [3, 5] =
      some { api := q0.api, meta := { limit := some 3 },
             raw := { q0.raw with startRow := 5, rowLimit := min 25000 3 } } ∧
    (Query.next q0).raw.rowLimit ≤ 25000 :=
  ⟨claim6_amended.1 q0 30000, claim6_amended.2.1 q0 3 5,
   claim6_amended.2.2 _ (Built.of_next _ (Built.base 0))⟩

/-- A query whose search type is already set to web. -/
def qWeb : Query := Query.search_type { api := 0 } "web"

/-- Claim C7, counterexample: reapplying a mutator with an identical
setting produces a query that compares EQUAL to its receiver under
`Query.__eq__` (raw dicts coincide), so `A != B` fails for the pair
`A = qWeb`, `B = qWeb.search_type("web")`. -/
theorem claim7_counterexample :
    Query.pyEq qWeb (Query.search_type qWeb "web") = true ∧
    qWeb.raw = (Query.search_type qWeb "web").raw := by
  constructor
  · decide
  · decide

/-- Claim C7 (amended): every mutator operates on a deep clone, so the
receiver is untouched by construction; the result compares unequal to
the receiver exactly when the applied change alters the raw parameter
dict.  `search_type` leaves the raw dict unchanged iff the same type
was already set; `filter` always grows the filter-group list, so the
result never equals the receiver; `next` leaves the receiver equal iff
`rowLimit` is zero. -/
theorem claim7_amended :
    (∀ (q : Query) (s : String),
        Query.pyEq q (q.search_type s) = true ↔ q.raw.searchType = some s) ∧
    (∀ (q : Query) (d e o g : String), Query.pyEq q (q.filter d e o g) = false) ∧
    (∀ q : Query, Query.pyEq q q.next = true ↔ q.raw.rowLimit = 0) := by
  refine ⟨?_, ?_, ?_⟩
  · intro q s
    rcases q with ⟨api, ⟨sr, rl, sd, ed, dims, dfg, st, dst⟩, meta⟩
    simp [Query.pyEq, Query.search_type, Query.clone, QueryRaw.mk.injEq]
  · intro q d e o g
    rcases q with ⟨api, ⟨sr, rl, sd, ed, dims, dfg, st, dst⟩, meta⟩
    simp only [Query.pyEq, Query.filter, Query.clone, decide_eq_false_iff_not]
    intro h
    have h2 := congrArg QueryRaw.dimensionFilterGroups h
    rcases dfg with _ | l
    · simp at h2
    · simp only [Option.getD_some, Option.some.injEq] at h2
      have := congrArg List.length h2
      simp at this
  · intro q
    rcases q with ⟨api, ⟨sr, rl, sd, ed, dims, dfg, st, dst⟩, meta⟩
    simp only [Query.pyEq, Query.next, Query.clone, decide_eq_true_eq, QueryRaw.mk.injEq,
      true_and, and_true]
    constructor
    · intro h
      omega
    · intro h
      omega

/-- An arbitrary value of today for cases where the inputs are explicit
dates (the resolver only reads it for defaults and keywords). -/
def someToday : CalDate := ⟨2020, 5, 15⟩

/-- Claim C8, counterexample: for the month offset `months = 1` from
start 2017-01-01 the claim predicts a stop `offset - 1 = 0` units
(months) past start, i.e. 2017-01-01 itself; `daterange` instead
returns 2017-01-31, because the one-off inclusive adjustment is applied
in days (`relativedelta(days=-1, months=1)`), not in the offset's own
unit. -/
theorem claim8_counterexample :
    Utils.daterange someToday (some (.iso ⟨2017, 1, 1⟩)) none 0 1
      = .ok ("2017-01-01", "2017-01-31") ∧
    (CalDate.addMonths ⟨2017, 1, 1⟩ (1 - 1)).toIso = "2017-01-01" ∧
    ("2017-01-31" : String) ≠ "2017-01-01" := by
  refine ⟨by decide, by decide, by decide⟩

/-- Claim C8 (amended): for a nonzero day or month offset (and no
explicit stop) the one-off inclusive adjustment is always applied in
days: the computed stop is `start + months months + (days + 1) days`
when the offset is negative and `start + months months + (days - 1)
days` otherwise, the result pair being sorted ascending.  For a pure
day offset this is the claim's `|offset| - 1` days in the corresponding
direction; in particular `resolve(start="2017-01-01", days=3)` ends at
"2017-01-03". -/
theorem claim8_amended :
    (∀ (todayD start : CalDate) (days months : Int), days ≠ 0 ∨ months ≠ 0 →
        Utils.daterange todayD (some (.date start)) none days months =
          .ok (sortedPair start
                ((start.addMonths months).addDays
                  (if days < 0 ∨ months < 0 then days + 1 else days - 1)))) ∧
    Utils.daterange someToday (some (.iso ⟨2017, 1, 1⟩)) none 3 0
      = .ok ("2017-01-01", "2017-01-03") := by
  constructor
  · intro todayD start days months h
    rw [Utils.daterange, Utils.normalize, Utils.normalize]
    simp only [Option.getD_some]
    rw [if_pos h]
    rfl
  · decide

theorem claim8_amended_witness :
    Utils.daterange someToday (some (.date ⟨2017, 1, 5⟩)) none (-3) 0 =
      .ok (sortedPair ⟨2017, 1, 5⟩
            ((CalDate.addMonths ⟨2017, 1, 5⟩ 0).addDays
              (if (-3 : Int) < 0 ∨ (0 : Int) < 0 then (-3) + 1 else (-3) - 1))) :=
  claim8_amended.1 someToday ⟨2017, 1, 5⟩ (-3) 0 (Or.inl (by decide))

/-- Claim C9: whenever an explicit stop is supplied (and parses)
together with a nonzero day or month offset, `daterange` fails with the
conflicting-range error (the source raises an `Exception` whose message
is the one carried here; the spec taxonomy calls this condition a
ConfigurationError / DateParseError). -/
theorem claim9_conflict (todayD : CalDate) (startI : Option DateInput) (stopI : DateInput)
    (days months : Int)
    (hoff : days ≠ 0 ∨ months ≠ 0)
    (hstart : ∃ x, Utils.normalize todayD startI = .ok x)
    (hstop : ∃ d, Utils.normalize todayD (some stopI) = .ok (some d)) :
    Utils.daterange todayD startI (some stopI) days months =
      .error (.rangeConflict "A date range cannot be defined alongside months or days.") := by
  obtain ⟨x, hx⟩ := hstart
  obtain ⟨d, hd⟩ := hstop
  rw [Utils.daterange, hx, hd]
  simp only []
  rw [if_pos hoff]

theorem claim9_conflict_witness :
    Utils.daterange someToday none (some (.date ⟨2017, 1, 3⟩)) 3 0 =
      .error (.rangeConflict "A date range cannot be defined alongside months or days.") :=
  claim9_conflict someToday none (.date ⟨2017, 1, 3⟩) 3 0 (Or.inl (by decide))
    ⟨none, rfl⟩ ⟨⟨2017, 1, 3⟩, rfl⟩

/-- Claim C10: two queries compare equal under `Query.__eq__` exactly
when their raw request dicts are equal; in particular every query
equals its clone, and queries differing only in `meta` or in the bound
api handle compare equal. -/
theorem claim10_query_equality :
    (∀ a b : Query, Query.pyEq a b = true ↔ a.raw = b.raw) ∧
    (∀ q : Query, Query.pyEq q q.clone = true) ∧
    (∀ (api1 api2 : Nat) (raw : QueryRaw) (m1 m2 : QueryMeta),
        Query.pyEq ⟨api1, raw, m1⟩ ⟨api2, raw, m2⟩ = true) := by
  refine ⟨?_, ?_, ?_⟩
  · intro a b
    simp [Query.pyEq]
  · intro q
    simp [Query.pyEq, Query.clone]
  · intro api1 api2 raw m1 m2
    simp [Query.pyEq]
